import Mathlib

/-
Verification of the contacts API of this repository.

The route handlers live in src/src/routes/contacts.py and are embedded below
in the namespace routes, one Lean function per handler, keeping the source
names.  The persistence layer (src/repository/contacts.py) and the RoleAccess
guard (src/services/roles.py) are collaborators that are not part of the
given sources; they are modelled from the specification, each with a doc
comment saying so.

Dates are modelled as day numbers (Nat): date.today() becomes an arbitrary
parameter today, and adding a timedelta of 7 days becomes addition by 7.
The database session plus the Contact table are modelled as a list of rows;
mutating handlers return the new table next to the HTTP outcome.
-/

/-- The role enum of src/database/models.py, as used by the routes. -/
inductive Role
  | admin
  | moderator
  | user
deriving DecidableEq, Repr

/-- An authenticated user as resolved by auth_service.get_current_user:
the routes only look at the role; the id distinguishes identities. -/
structure User where
  id : Nat
  role : Role
deriving DecidableEq, Repr

/-- A row of the Contact table.  The birthday is a day number. -/
structure Contact where
  id : Nat
  first_name : String
  last_name : String
  email : String
  birthday : Nat
deriving DecidableEq, Repr

/-- The request body for create and update (ContactBase of src/schemas.py). -/
structure ContactBase where
  first_name : String
  last_name : String
  email : String
  birthday : Nat
deriving DecidableEq, Repr

/-- The HTTP error outcomes raised by the routes. -/
inductive ApiError
  | Unauthorized
  | Forbidden
  | NotFound
  | Conflict
deriving DecidableEq, Repr

/-- Modelled from the spec: the RoleAccess guard of src/services/roles.py,
which is not among the given sources.  It is constructed with a fixed list
of permitted roles. -/
structure RoleAccess where
  allowed_roles : List Role
deriving DecidableEq, Repr

/-- Modelled from the spec: on each invocation the guard fails with a
Forbidden error if the role of the current user is not in the permitted set,
and otherwise lets the request proceed with no side effect. -/
def RoleAccess.check (ra : RoleAccess) (u : User) : Except ApiError Unit :=
  if u.role ∈ ra.allowed_roles then Except.ok () else Except.error ApiError.Forbidden

namespace repository_contacts

/-- Modelled from the spec: repository_contacts.get_contacts of
src/repository/contacts.py (not among the given sources); returns all rows
of the Contact table. -/
def get_contacts (db : List Contact) : List Contact := db

/-- Modelled from the spec: repository_contacts.get_contact_by_id; an
exact-match lookup by primary key, yielding the row or None. -/
def get_contact_by_id (id : Nat) (db : List Contact) : Option Contact :=
  db.find? (fun c => c.id == id)

/-- Modelled from the spec: repository_contacts.search_contacts_by_last_name;
a list-returning query, so the result is always a list, never None. -/
def search_contacts_by_last_name (last_name : String) (db : List Contact) :
    Option (List Contact) :=
  some (db.filter (fun c => c.last_name == last_name))

/-- Modelled from the spec: repository_contacts.search_contacts_by_first_name;
a list-returning query, so the result is always a list, never None. -/
def search_contacts_by_first_name (first_name : String) (db : List Contact) :
    Option (List Contact) :=
  some (db.filter (fun c => c.first_name == first_name))

/-- Modelled from the spec: repository_contacts.search_contact_by_email as
called by the search-by-email route; a list-returning query. -/
def search_contact_by_email (email : String) (db : List Contact) :
    Option (List Contact) :=
  some (db.filter (fun c => c.email == email))

/-- Modelled from the spec: repository_contacts.get_contact_by_email as used
by the create route to enforce email uniqueness; an exact-match lookup. -/
def get_contact_by_email (email : String) (db : List Contact) : Option Contact :=
  db.find? (fun c => c.email == email)

/-- The largest id present in the table, 0 for an empty table; used to model
the autoincrement primary key of the insert. -/
def maxId (db : List Contact) : Nat :=
  db.foldr (fun c m => max c.id m) 0

/-- Modelled from the spec: repository_contacts.create; inserts a new row
built from the body, with a fresh autoincrement id, and returns it. -/
def create (body : ContactBase) (db : List Contact) : Contact × List Contact :=
  let c : Contact := ⟨maxId db + 1, body.first_name, body.last_name, body.email, body.birthday⟩
  (c, db ++ [c])

/-- Modelled from the spec: repository_contacts.update; a full-field
overwrite of the row with the given id from the body, returning the updated
row, or None leaving the table unchanged when the id is absent. -/
def update (id : Nat) (body : ContactBase) (db : List Contact) :
    Option Contact × List Contact :=
  match db.find? (fun c => c.id == id) with
  | none => (none, db)
  | some c =>
    let c2 : Contact := ⟨c.id, body.first_name, body.last_name, body.email, body.birthday⟩
    (some c2, db.map (fun x => if x.id == id then c2 else x))

/-- Modelled from the spec: repository_contacts.remove; deletes the row with
the given id and returns it, or None leaving the table unchanged when the id
is absent. -/
def remove (id : Nat) (db : List Contact) : Option Contact × List Contact :=
  match db.find? (fun c => c.id == id) with
  | none => (none, db)
  | some c => (some c, db.eraseP (fun x => x.id == id))

/-- Modelled from the spec: repository_contacts.get_birthdays; a range query
returning the rows whose birthday lies in the inclusive window from today to
end_date. -/
def get_birthdays (today end_date : Nat) (db : List Contact) :
    Option (List Contact) :=
  some (db.filter (fun c => decide (today ≤ c.birthday ∧ c.birthday ≤ end_date)))

end repository_contacts

namespace routes

/-- Rule of line 14 of src/src/routes/contacts.py. -/
def allowed_operation_get : RoleAccess := ⟨[Role.admin, Role.moderator, Role.user]⟩

/-- Rule of line 15 of src/src/routes/contacts.py. -/
def allowed_operation_create : RoleAccess := ⟨[Role.admin, Role.moderator, Role.user]⟩

/-- Rule of line 16 of src/src/routes/contacts.py. -/
def allowed_operation_update : RoleAccess := ⟨[Role.admin, Role.moderator]⟩

/-- Rule of line 17 of src/src/routes/contacts.py. -/
def allowed_operation_remove : RoleAccess := ⟨[Role.admin]⟩

/-- The shared shape of the list-returning handlers of
src/src/routes/contacts.py: the gateway value, which in Python could be
None, is checked with an is-None test that raises 404, and otherwise
returned with status 200. -/
def listNoneCheck (gw : Option (List Contact)) : Except ApiError (Nat × List Contact) :=
  match gw with
  | none => Except.error ApiError.NotFound
  | some l => Except.ok (200, l)

/-- Handler get_contacts, lines 20 to 23. -/
def get_contacts (u : User) (db : List Contact) : Except ApiError (Nat × List Contact) :=
  match allowed_operation_get.check u with
  | Except.error e => Except.error e
  | Except.ok _ => Except.ok (200, repository_contacts.get_contacts db)

/-- Handler get_contact for search_by_id, lines 26 to 31. -/
def get_contact (u : User) (id : Nat) (db : List Contact) : Except ApiError (Nat × Contact) :=
  match allowed_operation_get.check u with
  | Except.error e => Except.error e
  | Except.ok _ =>
    match repository_contacts.get_contact_by_id id db with
    | none => Except.error ApiError.NotFound
    | some c => Except.ok (200, c)

/-- Handler search_contacts_by_last_name, lines 34 to 43. -/
def search_contacts_by_last_name (u : User) (last_name : String) (db : List Contact) :
    Except ApiError (Nat × List Contact) :=
  match allowed_operation_get.check u with
  | Except.error e => Except.error e
  | Except.ok _ => listNoneCheck (repository_contacts.search_contacts_by_last_name last_name db)

/-- Handler search_contacts_by_first_name, lines 46 to 55. -/
def search_contacts_by_first_name (u : User) (first_name : String) (db : List Contact) :
    Except ApiError (Nat × List Contact) :=
  match allowed_operation_get.check u with
  | Except.error e => Except.error e
  | Except.ok _ => listNoneCheck (repository_contacts.search_contacts_by_first_name first_name db)

/-- Handler search_contacts_by_email, lines 58 to 67. -/
def search_contacts_by_email (u : User) (email : String) (db : List Contact) :
    Except ApiError (Nat × List Contact) :=
  match allowed_operation_get.check u with
  | Except.error e => Except.error e
  | Except.ok _ => listNoneCheck (repository_contacts.search_contact_by_email email db)

/-- Handler create_contacts, lines 70 to 79: checks email uniqueness, then
inserts; status 201 on success. -/
def create_contacts (u : User) (body : ContactBase) (db : List Contact) :
    Except ApiError (Nat × Contact) × List Contact :=
  match allowed_operation_create.check u with
  | Except.error e => (Except.error e, db)
  | Except.ok _ =>
    match repository_contacts.get_contact_by_email body.email db with
    | some _ => (Except.error ApiError.Conflict, db)
    | none =>
      let r := repository_contacts.create body db
      (Except.ok (201, r.1), r.2)

/-- Handler update_contact, lines 82 to 88: delegates to the repository
update and raises 404 when it yields None; status 200 on success. -/
def update_contact (u : User) (body : ContactBase) (id : Nat) (db : List Contact) :
    Except ApiError (Nat × Contact) × List Contact :=
  match allowed_operation_update.check u with
  | Except.error e => (Except.error e, db)
  | Except.ok _ =>
    match repository_contacts.update id body db with
    | (none, db2) => (Except.error ApiError.NotFound, db2)
    | (some c, db2) => (Except.ok (200, c), db2)

/-- Handler remove_contact, lines 91 to 96: delegates to the repository
remove and raises 404 when it yields None; status 204 on success. -/
def remove_contact (u : User) (id : Nat) (db : List Contact) :
    Except ApiError (Nat × Contact) × List Contact :=
  match allowed_operation_remove.check u with
  | Except.error e => (Except.error e, db)
  | Except.ok _ =>
    match repository_contacts.remove id db with
    | (none, db2) => (Except.error ApiError.NotFound, db2)
    | (some c, db2) => (Except.ok (204, c), db2)

/-- Handler get_birthdays, lines 99 to 108: computes today and today plus a
timedelta of 7 days, queries the window, and applies the is-None check. -/
def get_birthdays (u : User) (today : Nat) (db : List Contact) :
    Except ApiError (Nat × List Contact) :=
  match allowed_operation_get.check u with
  | Except.error e => Except.error e
  | Except.ok _ =>
    let end_date := today + 7
    listNoneCheck (repository_contacts.get_birthdays today end_date db)

end routes

/-- One contact operation of the route table, with its request arguments. -/
inductive ContactOp
  | list
  | searchById (id : Nat)
  | searchByLastName (s : String)
  | searchByFirstName (s : String)
  | searchByEmail (s : String)
  | create (body : ContactBase)
  | update (id : Nat) (body : ContactBase)
  | remove (id : Nat)
  | birthdays (today : Nat)
deriving DecidableEq, Repr

/-- A response body, one row or a list of rows. -/
inductive OpResultBody
  | one (c : Contact)
  | many (l : List Contact)
deriving DecidableEq, Repr

/-- The one RoleAccess rule attached to each handler by its route decorator
(the dependencies argument in src/src/routes/contacts.py). -/
def opGate : ContactOp → RoleAccess
  | ContactOp.list => routes.allowed_operation_get
  | ContactOp.searchById _ => routes.allowed_operation_get
  | ContactOp.searchByLastName _ => routes.allowed_operation_get
  | ContactOp.searchByFirstName _ => routes.allowed_operation_get
  | ContactOp.searchByEmail _ => routes.allowed_operation_get
  | ContactOp.create _ => routes.allowed_operation_create
  | ContactOp.update _ _ => routes.allowed_operation_update
  | ContactOp.remove _ => routes.allowed_operation_remove
  | ContactOp.birthdays _ => routes.allowed_operation_get

/-- Run one operation as the given user against the given table, returning
the HTTP outcome and the table afterwards. -/
def runOp (op : ContactOp) (u : User) (db : List Contact) :
    Except ApiError (Nat × OpResultBody) × List Contact :=
  match op with
  | ContactOp.list =>
    ((routes.get_contacts u db).map (fun p => (p.1, OpResultBody.many p.2)), db)
  | ContactOp.searchById id =>
    ((routes.get_contact u id db).map (fun p => (p.1, OpResultBody.one p.2)), db)
  | ContactOp.searchByLastName s =>
    ((routes.search_contacts_by_last_name u s db).map (fun p => (p.1, OpResultBody.many p.2)), db)
  | ContactOp.searchByFirstName s =>
    ((routes.search_contacts_by_first_name u s db).map (fun p => (p.1, OpResultBody.many p.2)), db)
  | ContactOp.searchByEmail s =>
    ((routes.search_contacts_by_email u s db).map (fun p => (p.1, OpResultBody.many p.2)), db)
  | ContactOp.create body =>
    let r := routes.create_contacts u body db
    (r.1.map (fun p => (p.1, OpResultBody.one p.2)), r.2)
  | ContactOp.update id body =>
    let r := routes.update_contact u body id db
    (r.1.map (fun p => (p.1, OpResultBody.one p.2)), r.2)
  | ContactOp.remove id =>
    let r := routes.remove_contact u id db
    (r.1.map (fun p => (p.1, OpResultBody.one p.2)), r.2)
  | ContactOp.birthdays today =>
    ((routes.get_birthdays u today db).map (fun p => (p.1, OpResultBody.many p.2)), db)

/-- A sample row used by witnesses. -/
def sampleContact : Contact := ⟨1, "Ann", "Smith", "ann", 3⟩

/-- A one-row sample table used by witnesses. -/
def dbA : List Contact := [sampleContact]

/-- A sample admin used by witnesses. -/
def adminUser : User := ⟨1, Role.admin⟩

/-- A sample moderator used by witnesses. -/
def modUser : User := ⟨2, Role.moderator⟩

/-- A sample plain user used by witnesses. -/
def plainUser : User := ⟨3, Role.user⟩

/-- A sample request body used by witnesses. -/
def body0 : ContactBase := ⟨"Bob", "Jones", "bob", 5⟩

/-- A contact whose birthday is day 7, the day exactly one week after day 0;
with day 0 read as 2024-01-01, this birthday is 2024-01-08. -/
def contactJan8 : Contact := ⟨2, "Eve", "Day", "eve", 7⟩

theorem RoleAccess.check_ok (ra : RoleAccess) (u : User) (h : u.role ∈ ra.allowed_roles) :
    ra.check u = Except.ok () := by
  simp [RoleAccess.check, h]

theorem RoleAccess.check_not_mem (ra : RoleAccess) (u : User) (h : u.role ∉ ra.allowed_roles) :
    ra.check u = Except.error ApiError.Forbidden := by
  simp [RoleAccess.check, h]

theorem mem_get_roles (r : Role) : r ∈ routes.allowed_operation_get.allowed_roles := by
  cases r <;> simp [routes.allowed_operation_get]

theorem mem_create_roles (r : Role) : r ∈ routes.allowed_operation_create.allowed_roles := by
  cases r <;> simp [routes.allowed_operation_create]

theorem check_get_ok (u : User) : routes.allowed_operation_get.check u = Except.ok () :=
  RoleAccess.check_ok _ u (mem_get_roles u.role)

theorem check_create_ok (u : User) : routes.allowed_operation_create.check u = Except.ok () :=
  RoleAccess.check_ok _ u (mem_create_roles u.role)

theorem id_le_maxId {db : List Contact} {c : Contact} (hc : c ∈ db) :
    c.id ≤ repository_contacts.maxId db := by
  induction db with
  | nil => cases hc
  | cons a l ih =>
    have hm : repository_contacts.maxId (a :: l) = max a.id (repository_contacts.maxId l) := rfl
    rw [hm]
    rcases List.mem_cons.mp hc with h | h
    · subst h; exact le_max_left _ _
    · exact le_trans (ih h) (le_max_right _ _)

theorem fresh_id_not_found (db : List Contact) :
    db.find? (fun c => c.id == repository_contacts.maxId db + 1) = none := by
  rw [List.find?_eq_none]
  intro c hc
  simp only [beq_iff_eq]
  intro h
  have := id_le_maxId hc
  omega

theorem find?_append_none {p : Contact → Bool} (l1 l2 : List Contact)
    (h : l1.find? p = none) : (l1 ++ l2).find? p = l2.find? p := by
  induction l1 with
  | nil => rfl
  | cons a l ih =>
    cases hpa : p a with
    | true => rw [List.find?_cons_of_pos _ hpa] at h; cases h
    | false =>
      rw [List.find?_cons_of_neg _ (by simp [hpa])] at h
      rw [List.cons_append, List.find?_cons_of_neg _ (by simp [hpa])]
      exact ih h

/-- C1: for every contact operation and every authenticated user whose role
is not in the allowed role set of that operation, invoking the operation
fails with Forbidden and has no side effect on the contact table. -/
theorem C1_forbidden_no_side_effect (op : ContactOp) (u : User) (db : List Contact)
    (h : u.role ∉ (opGate op).allowed_roles) :
    runOp op u db = (Except.error ApiError.Forbidden, db) := by
  cases op <;>
    simp_all [runOp, opGate, routes.get_contacts, routes.get_contact,
      routes.search_contacts_by_last_name, routes.search_contacts_by_first_name,
      routes.search_contacts_by_email, routes.create_contacts, routes.update_contact,
      routes.remove_contact, routes.get_birthdays, RoleAccess.check, Except.map]

theorem C1_witness :
    (⟨9, Role.user⟩ : User).role ∉ (opGate (ContactOp.remove 1)).allowed_roles ∧
    runOp (ContactOp.remove 1) ⟨9, Role.user⟩ [] = (Except.error ApiError.Forbidden, []) :=
  ⟨by decide, C1_forbidden_no_side_effect (ContactOp.remove 1) ⟨9, Role.user⟩ [] (by decide)⟩

/-- C10: no contact operation varies its result by the identity of the
caller: two authenticated users whose roles are both in the allowed set of
an operation get the same result on the same table with the same arguments. -/
theorem C10_same_result_for_allowed_roles (op : ContactOp) (u1 u2 : User) (db : List Contact)
    (h1 : u1.role ∈ (opGate op).allowed_roles) (h2 : u2.role ∈ (opGate op).allowed_roles) :
    runOp op u1 db = runOp op u2 db := by
  cases op <;>
    simp_all [runOp, opGate, routes.get_contacts, routes.get_contact,
      routes.search_contacts_by_last_name, routes.search_contacts_by_first_name,
      routes.search_contacts_by_email, routes.create_contacts, routes.update_contact,
      routes.remove_contact, routes.get_birthdays, RoleAccess.check, Except.map]

theorem C10_witness :
    runOp (ContactOp.searchById 1) adminUser dbA = runOp (ContactOp.searchById 1) plainUser dbA :=
  C10_same_result_for_allowed_roles (ContactOp.searchById 1) adminUser plainUser dbA
    (by decide) (by decide)

/-- C2: for every create request whose body email equals the email of some
existing contact, the operation fails with Conflict and the table is
unchanged; otherwise a new contact carrying the body fields is inserted at
the end of the table and returned with status 201. -/
theorem C2_create_conflict_or_insert (u : User) (body : ContactBase) (db : List Contact) :
    ((∃ c ∈ db, c.email = body.email) →
        routes.create_contacts u body db = (Except.error ApiError.Conflict, db)) ∧
    ((∀ c ∈ db, c.email ≠ body.email) →
        ∃ c, routes.create_contacts u body db = (Except.ok (201, c), db ++ [c]) ∧
          c.first_name = body.first_name ∧ c.last_name = body.last_name ∧
          c.email = body.email ∧ c.birthday = body.birthday) := by
  constructor
  · rintro ⟨c, hc, he⟩
    have hfind : ∃ c2, db.find? (fun x => x.email == body.email) = some c2 := by
      cases h2 : db.find? (fun x => x.email == body.email) with
      | none =>
        rw [List.find?_eq_none] at h2
        exact absurd (by simp [he]) (h2 c hc)
      | some c2 => exact ⟨c2, rfl⟩
    obtain ⟨c2, h2⟩ := hfind
    simp [routes.create_contacts, check_create_ok, repository_contacts.get_contact_by_email, h2]
  · intro h
    have hfind : db.find? (fun x => x.email == body.email) = none := by
      rw [List.find?_eq_none]
      intro x hx
      simp only [beq_iff_eq]
      exact h x hx
    refine ⟨⟨repository_contacts.maxId db + 1, body.first_name, body.last_name,
      body.email, body.birthday⟩, ?_, rfl, rfl, rfl, rfl⟩
    simp [routes.create_contacts, check_create_ok, repository_contacts.get_contact_by_email,
      hfind, repository_contacts.create]

theorem C2_witness :
    routes.create_contacts plainUser ⟨"Zoe", "Q", "ann", 9⟩ dbA =
      (Except.error ApiError.Conflict, dbA) :=
  (C2_create_conflict_or_insert plainUser ⟨"Zoe", "Q", "ann", 9⟩ dbA).1
    ⟨sampleContact, by decide, by decide⟩

/-- C3: deleting an id absent from the table fails with NotFound and leaves
the table unchanged; deleting a present id removes that contact and returns
the deleted record with the no-content status 204. -/
theorem C3_remove_not_found_or_deletes (u : User) (id : Nat) (db : List Contact)
    (hrole : u.role ∈ routes.allowed_operation_remove.allowed_roles) :
    ((∀ c ∈ db, c.id ≠ id) →
        routes.remove_contact u id db = (Except.error ApiError.NotFound, db)) ∧
    ((∃ c ∈ db, c.id = id) →
        ∃ c, c ∈ db ∧ c.id = id ∧
          routes.remove_contact u id db =
            (Except.ok (204, c), db.eraseP (fun x => x.id == id))) := by
  have hchk := RoleAccess.check_ok _ u hrole
  constructor
  · intro h
    have hfind : db.find? (fun c => c.id == id) = none := by
      rw [List.find?_eq_none]
      intro x hx
      simp only [beq_iff_eq]
      exact h x hx
    simp [routes.remove_contact, hchk, repository_contacts.remove, hfind]
  · rintro ⟨c, hc, hcid⟩
    have hfind : ∃ c2, db.find? (fun x => x.id == id) = some c2 := by
      cases h2 : db.find? (fun x => x.id == id) with
      | none =>
        rw [List.find?_eq_none] at h2
        exact absurd (by simp [hcid]) (h2 c hc)
      | some c2 => exact ⟨c2, rfl⟩
    obtain ⟨c2, h2⟩ := hfind
    refine ⟨c2, List.mem_of_find?_eq_some h2, by simpa using List.find?_some h2, ?_⟩
    simp [routes.remove_contact, hchk, repository_contacts.remove, h2]

theorem C3_witness :
    routes.remove_contact adminUser 2 dbA = (Except.error ApiError.NotFound, dbA) :=
  (C3_remove_not_found_or_deletes adminUser 2 dbA (by decide)).1 (by decide)

/-- C4: updating an id absent from the table fails with NotFound and leaves
the table unchanged; updating a present id overwrites every body field of
that row, keeping its id, and returns the updated record with status 200. -/
theorem C4_update_not_found_or_overwrites (u : User) (body : ContactBase) (id : Nat)
    (db : List Contact) (hrole : u.role ∈ routes.allowed_operation_update.allowed_roles) :
    ((∀ c ∈ db, c.id ≠ id) →
        routes.update_contact u body id db = (Except.error ApiError.NotFound, db)) ∧
    ((∃ c ∈ db, c.id = id) →
        ∃ c2, routes.update_contact u body id db =
            (Except.ok (200, c2), db.map (fun x => if x.id == id then c2 else x)) ∧
          c2.id = id ∧ c2.first_name = body.first_name ∧ c2.last_name = body.last_name ∧
          c2.email = body.email ∧ c2.birthday = body.birthday) := by
  have hchk := RoleAccess.check_ok _ u hrole
  constructor
  · intro h
    have hfind : db.find? (fun c => c.id == id) = none := by
      rw [List.find?_eq_none]
      intro x hx
      simp only [beq_iff_eq]
      exact h x hx
    simp [routes.update_contact, hchk, repository_contacts.update, hfind]
  · rintro ⟨c, hc, hcid⟩
    have hfind : ∃ c2, db.find? (fun x => x.id == id) = some c2 := by
      cases h2 : db.find? (fun x => x.id == id) with
      | none =>
        rw [List.find?_eq_none] at h2
        exact absurd (by simp [hcid]) (h2 c hc)
      | some c2 => exact ⟨c2, rfl⟩
    obtain ⟨cf, h2⟩ := hfind
    have hcfid : cf.id = id := by simpa using List.find?_some h2
    refine ⟨⟨cf.id, body.first_name, body.last_name, body.email, body.birthday⟩,
      ?_, hcfid, rfl, rfl, rfl, rfl⟩
    simp [routes.update_contact, hchk, repository_contacts.update, h2]

theorem C4_witness :
    routes.update_contact modUser body0 2 dbA = (Except.error ApiError.NotFound, dbA) :=
  (C4_update_not_found_or_overwrites modUser body0 2 dbA (by decide)).1 (by decide)

/-- C8: round trip: for every body whose email is not already present,
create returns a new record with status 201, and search_by_id on the id of
that record over the resulting table returns the same record with 200. -/
theorem C8_create_then_search_roundtrip (u u2 : User) (body : ContactBase) (db : List Contact)
    (h : ∀ c ∈ db, c.email ≠ body.email) :
    ∃ c db2, routes.create_contacts u body db = (Except.ok (201, c), db2) ∧
      routes.get_contact u2 c.id db2 = Except.ok (200, c) := by
  have hfind : db.find? (fun x => x.email == body.email) = none := by
    rw [List.find?_eq_none]
    intro x hx
    simp only [beq_iff_eq]
    exact h x hx
  refine ⟨⟨repository_contacts.maxId db + 1, body.first_name, body.last_name,
      body.email, body.birthday⟩,
    db ++ [⟨repository_contacts.maxId db + 1, body.first_name, body.last_name,
      body.email, body.birthday⟩], ?_, ?_⟩
  · simp [routes.create_contacts, check_create_ok, repository_contacts.get_contact_by_email,
      hfind, repository_contacts.create]
  · simp [routes.get_contact, check_get_ok, repository_contacts.get_contact_by_id,
      fresh_id_not_found db]

theorem C8_witness :
    ∃ c db2, routes.create_contacts plainUser body0 [] = (Except.ok (201, c), db2) ∧
      routes.get_contact adminUser c.id db2 = Except.ok (200, c) :=
  C8_create_then_search_roundtrip plainUser adminUser body0 [] (by simp)

/-- C5 counterexample: with today modelled as day 0 (2024-01-01), a contact
whose birthday is day 7 (2024-01-08) is returned by the birthday query,
although day 7 does not lie in the half-open window of the days strictly
before today plus 7: the window of the query is inclusive on both ends. -/
theorem C5_counterexample :
    routes.get_birthdays plainUser 0 [contactJan8] = Except.ok (200, [contactJan8]) ∧
    ¬ (contactJan8.birthday < 0 + 7) := by
  constructor
  · rfl
  · decide

/-- C5 amended: the birthday query computes today and today plus 7 days as
an inclusive window and returns exactly the contacts whose birthday falls in
the closed interval from today to today plus 7; with today = 2024-01-01,
these are the birthdays from 01-01 to 01-08 inclusive. -/
theorem C5_birthdays_inclusive_window (u : User) (today : Nat) (db : List Contact) :
    ∃ l, routes.get_birthdays u today db = Except.ok (200, l) ∧
      ∀ c, c ∈ l ↔ (c ∈ db ∧ today ≤ c.birthday ∧ c.birthday ≤ today + 7) := by
  refine ⟨db.filter (fun c => decide (today ≤ c.birthday ∧ c.birthday ≤ today + 7)), ?_, ?_⟩
  · simp [routes.get_birthdays, check_get_ok, repository_contacts.get_birthdays,
      routes.listNoneCheck]
  · intro c
    simp [List.mem_filter, and_assoc]

/-- C6: search_by_id returns NotFound exactly when the gateway lookup for
that id yields no contact, and otherwise returns the found contact with
status 200. -/
theorem C6_search_by_id_not_found_iff (u : User) (id : Nat) (db : List Contact) :
    (routes.get_contact u id db = Except.error ApiError.NotFound ↔
      repository_contacts.get_contact_by_id id db = none) ∧
    (∀ c, repository_contacts.get_contact_by_id id db = some c →
      routes.get_contact u id db = Except.ok (200, c)) := by
  have hchk := check_get_ok u
  constructor
  · cases hfd : repository_contacts.get_contact_by_id id db with
    | none => simp [routes.get_contact, hchk, hfd]
    | some c => simp [routes.get_contact, hchk, hfd]
  · intro c hc
    simp [routes.get_contact, hchk, hc]

theorem C6_witness :
    routes.get_contact plainUser 1 dbA = Except.ok (200, sampleContact) :=
  (C6_search_by_id_not_found_iff plainUser 1 dbA).2 sampleContact rfl

/-- C7: each endpoint is gated by exactly one rule, with the role sets of
the interface table: delete admits admin only; update admits admin and
moderator; list, search, create, and birthday operations admit all three
roles. -/
theorem C7_role_sets :
    (∀ id, opGate (ContactOp.remove id) = routes.allowed_operation_remove) ∧
    (∀ r : Role, r ∈ routes.allowed_operation_remove.allowed_roles ↔ r = Role.admin) ∧
    (∀ id body, opGate (ContactOp.update id body) = routes.allowed_operation_update) ∧
    (∀ r : Role, r ∈ routes.allowed_operation_update.allowed_roles ↔
      (r = Role.admin ∨ r = Role.moderator)) ∧
    opGate ContactOp.list = routes.allowed_operation_get ∧
    (∀ id, opGate (ContactOp.searchById id) = routes.allowed_operation_get) ∧
    (∀ s, opGate (ContactOp.searchByLastName s) = routes.allowed_operation_get) ∧
    (∀ s, opGate (ContactOp.searchByFirstName s) = routes.allowed_operation_get) ∧
    (∀ s, opGate (ContactOp.searchByEmail s) = routes.allowed_operation_get) ∧
    (∀ body, opGate (ContactOp.create body) = routes.allowed_operation_create) ∧
    (∀ t, opGate (ContactOp.birthdays t) = routes.allowed_operation_get) ∧
    (∀ r : Role, r ∈ routes.allowed_operation_get.allowed_roles) ∧
    (∀ r : Role, r ∈ routes.allowed_operation_create.allowed_roles) := by
  refine ⟨fun _ => rfl, ?_, fun _ _ => rfl, ?_, rfl, fun _ => rfl, fun _ => rfl,
    fun _ => rfl, fun _ => rfl, fun _ => rfl, fun _ => rfl, mem_get_roles, mem_create_roles⟩
  · intro r
    cases r <;> decide
  · intro r
    cases r <;> decide

/-- C9: on the list-returning search endpoints, given a gateway value that
is a list and not None, the NotFound branch is unreachable, and an empty
match set comes back as a successful empty list: each search returns status
200 with the filtered rows, for every user. -/
theorem C9_search_no_not_found (u : User) (s : String) (db : List Contact) :
    (∀ gw : Option (List Contact), gw ≠ none →
        routes.listNoneCheck gw ≠ Except.error ApiError.NotFound) ∧
    routes.search_contacts_by_last_name u s db =
      Except.ok (200, db.filter (fun c => c.last_name == s)) ∧
    routes.search_contacts_by_first_name u s db =
      Except.ok (200, db.filter (fun c => c.first_name == s)) ∧
    routes.search_contacts_by_email u s db =
      Except.ok (200, db.filter (fun c => c.email == s)) := by
  have hchk := check_get_ok u
  refine ⟨?_, ?_, ?_, ?_⟩
  · intro gw hgw
    cases gw with
    | none => exact absurd rfl hgw
    | some l => simp [routes.listNoneCheck]
  · simp [routes.search_contacts_by_last_name, hchk,
      repository_contacts.search_contacts_by_last_name, routes.listNoneCheck]
  · simp [routes.search_contacts_by_first_name, hchk,
      repository_contacts.search_contacts_by_first_name, routes.listNoneCheck]
  · simp [routes.search_contacts_by_email, hchk,
      repository_contacts.search_contact_by_email, routes.listNoneCheck]

theorem C9_witness :
    routes.search_contacts_by_last_name plainUser "Zzz" dbA =
      Except.ok (200, dbA.filter (fun c => c.last_name == "Zzz")) :=
  (C9_search_no_not_found plainUser "Zzz" dbA).2.1
